import Mathlib

/-!
Verification of the synthetic astronomical image compositing engine
(`fits_generator.py`, class `AstronomicalFITSGenerator`).

The stochastic generator (`np.random.RandomState`) is modelled as an oracle:
a family of streams indexed by the position of the call in the run, which is
exactly the call-order-determinism contract of the random source.  Each call
advances a single counter; the value returned depends on the call arguments
and on the counter.  Float arithmetic is modelled over the reals; Python
`int()` truncation toward zero is `pyInt`; the final unsigned 16-bit cast
performed by `image.astype(np.uint16)` is `astypeUint16`.
-/

set_option maxHeartbeats 1000000

noncomputable section

namespace FitsGen

/-- Oracle model of the seeded `np.random.RandomState` owned by the
generator: every draw is determined by the arguments of the call and by the
position of the call in the run (the counter threaded through the pipeline). -/
structure RNG where
  unif : ℝ → ℝ → ℕ → ℝ
  pois : ℝ → ℕ → ℕ
  norm : ℝ → ℝ → ℕ → ℝ
  expo : ℝ → ℕ → ℝ
  randint : ℕ → ℕ → ℕ → ℕ
  choice : ℕ → ℕ → ℕ
  rand : ℕ → ℝ
  poisArr : ℝ → ℕ → ℤ → ℤ → ℕ
  normArr : ℝ → ℝ → ℕ → ℤ → ℤ → ℝ

/-- Numeric configuration of `_load_config` (height and width are the two
components of `image_size`; the option lists are modelled by their lengths,
since only the index of a `choice` draw matters for the pixels). -/
structure Config where
  height : ℕ
  width : ℕ
  pixelScale : ℝ
  gain : ℝ
  readNoise : ℝ
  darkCurrent : ℝ
  skyBackground : ℝ
  saturationLevel : ℝ
  starDensity : ℝ
  galaxyDensity : ℝ
  cosmicRayRate : ℝ
  numTelescopes : ℕ
  numInstruments : ℕ
  numFilters : ℕ

/-- The default configuration dictionary of `_load_config`. -/
def defaultConfig : Config where
  height := 2048
  width := 2048
  pixelScale := 0.25
  gain := 1.5
  readNoise := 5.0
  darkCurrent := 0.01
  skyBackground := 1000.0
  saturationLevel := 65000
  starDensity := 100
  galaxyDensity := 10
  cosmicRayRate := 0.1
  numTelescopes := 5
  numInstruments := 5
  numFilters := 8

/-- The mutable image array, as a function from (row, column) to value. -/
abbrev Canvas := ℤ → ℤ → ℝ

/-- The zero-initialized canvas `np.zeros((height, width))`. -/
def zeroCanvas : Canvas := fun _ _ => 0

/-- A canvas is non-negative when every pixel value is `≥ 0`. -/
def canvasNonneg (c : Canvas) : Prop := ∀ Y X : ℤ, 0 ≤ c Y X

/-- Python `int()` truncation toward zero. -/
def pyInt (r : ℝ) : ℤ := if 0 ≤ r then ⌊r⌋ else ⌈r⌉

/-- Stamp side length: `size = int(6 * s) + 1`, bumped to the next odd
number when even (shared shape logic of `_add_stellar_psf` and
`_add_galaxy_profile`). -/
def stampSize (s : ℝ) : ℕ :=
  let n := (pyInt (6 * s)).toNat + 1
  if n % 2 = 0 then n + 1 else n

/-- `sigma = fwhm / (2 * sqrt(2 * log 2))` of `_add_stellar_psf`. -/
def gaussSigma (fwhm : ℝ) : ℝ := fwhm / (2 * Real.sqrt (2 * Real.log 2))

/-- Stellar stamp side. -/
def psfSize (fwhm : ℝ) : ℕ := stampSize (gaussSigma fwhm)

/-- Stellar stamp center `center = size // 2`. -/
def psfCenter (fwhm : ℝ) : ℤ := (psfSize fwhm / 2 : ℕ)

/-- Unnormalized Gaussian PSF value at stamp entry (row i, column j):
`exp(-((x_indices - center)^2 + (y_indices - center)^2) / (2 sigma^2))`. -/
def psfEntry (fwhm : ℝ) (i j : ℤ) : ℝ :=
  let sigma := gaussSigma fwhm
  let center : ℝ := (psfCenter fwhm : ℤ)
  Real.exp (-(((j : ℝ) - center) ^ 2 + ((i : ℝ) - center) ^ 2) / (2 * sigma ^ 2))

/-- Galaxy stamp side `int(6 * r_eff) + 1` (odd). -/
def galSize (rEff : ℝ) : ℕ := stampSize rEff

/-- Galaxy stamp center. -/
def galCenter (rEff : ℝ) : ℤ := (galSize rEff / 2 : ℕ)

/-- Unnormalized Sersic profile value of `_add_galaxy_profile` at stamp
entry (row i, column j): rotated coordinates, elliptical radius, and the
`n = 1` exponential or `n = 4` de Vaucouleurs law. -/
def galEntry (rEff axisRat posAngle sersicN : ℝ) (i j : ℤ) : ℝ :=
  let center : ℝ := (galCenter rEff : ℤ)
  let angleRad := posAngle * Real.pi / 180
  let xRot := ((j : ℝ) - center) * Real.cos angleRad + ((i : ℝ) - center) * Real.sin angleRad
  let yRot := -(((j : ℝ) - center) * Real.sin angleRad) + ((i : ℝ) - center) * Real.cos angleRad
  let rEllipse := Real.sqrt (xRot ^ 2 + (yRot / axisRat) ^ 2)
  if sersicN = 1.0 then
    Real.exp (-(1.678) * (rEllipse / rEff))
  else
    Real.exp (-(7.669) * (Real.rpow (rEllipse / rEff) (1.0 / sersicN) - 1))

/-- Total of a square stamp, `np.sum(psf)`. -/
def stampSum (size : ℕ) (e : ℤ → ℤ → ℝ) : ℝ :=
  ∑ i in Finset.Ico (0 : ℤ) (size : ℤ), ∑ j in Finset.Ico (0 : ℤ) (size : ℤ), e i j

/-- Flux normalization `psf = psf / np.sum(psf) * flux`. -/
def normEntry (size : ℕ) (e : ℤ → ℤ → ℝ) (flux : ℝ) (i j : ℤ) : ℝ :=
  e i j / stampSum size e * flux

/-- Boundary-safe compositing of a `size × size` stamp whose top-left corner
sits at canvas coordinates `(xStart, yStart)`: the code intersects the stamp
bounding box with the canvas and adds only the overlapping sub-rectangle
(`image[img_y_start:img_y_end, img_x_start:img_x_end] += psf[...]`). -/
def compositeStamp (image : Canvas) (size : ℕ) (e : ℤ → ℤ → ℝ)
    (xStart yStart : ℤ) (width height : ℕ) : Canvas :=
  let imgXs := max 0 xStart
  let imgYs := max 0 yStart
  let imgXe := min (width : ℤ) (xStart + size)
  let imgYe := min (height : ℤ) (yStart + size)
  fun Y X =>
    if imgYs ≤ Y ∧ Y < imgYe ∧ imgXs ≤ X ∧ X < imgXe then
      image Y X + e (Y - yStart) (X - xStart)
    else image Y X

/-- `_add_stellar_psf(image, x, y, flux, fwhm)`. -/
def addStellarPsf (image : Canvas) (x y flux fwhm : ℝ) (width height : ℕ) : Canvas :=
  compositeStamp image (psfSize fwhm) (normEntry (psfSize fwhm) (psfEntry fwhm) flux)
    (pyInt (x - (psfCenter fwhm : ℝ))) (pyInt (y - (psfCenter fwhm : ℝ))) width height

/-- `_add_galaxy_profile(image, x, y, flux, r_eff, axis_ratio, position_angle,
sersic_n)`. -/
def addGalaxyProfile (image : Canvas) (x y flux rEff axisRat posAngle sersicN : ℝ)
    (width height : ℕ) : Canvas :=
  compositeStamp image (galSize rEff)
    (normEntry (galSize rEff) (galEntry rEff axisRat posAngle sersicN) flux)
    (pyInt (x - (galCenter rEff : ℝ))) (pyInt (y - (galCenter rEff : ℝ))) width height

/-- Sum of all in-bounds canvas pixels. -/
def canvasSum (width height : ℕ) (c : Canvas) : ℝ :=
  ∑ Y in Finset.Ico (0 : ℤ) (height : ℤ), ∑ X in Finset.Ico (0 : ℤ) (width : ℤ), c Y X

/-- Total value added to the canvas between two states. -/
def addedTotal (width height : ℕ) (before afterC : Canvas) : ℝ :=
  canvasSum width height afterC - canvasSum width height before

/-- Sky background stage: `image += random_state.poisson(sky_level,
size=(height, width))` (one array draw; every in-bounds pixel gets its
Poisson variate added). -/
def applySky (cfg : Config) (rng : RNG) (image : Canvas) (n : ℕ) : Canvas × ℕ :=
  (fun Y X =>
    if 0 ≤ Y ∧ Y < (cfg.height : ℤ) ∧ 0 ≤ X ∧ X < (cfg.width : ℤ) then
      image Y X + (rng.poisArr cfg.skyBackground n Y X : ℝ)
    else image Y X, n + 1)

/-- Field area in square arcminutes, as computed by `_add_stars` and
`_add_galaxies`. -/
def fieldArea (cfg : Config) : ℝ :=
  ((cfg.height : ℝ) * (cfg.pixelScale / 3600)) * ((cfg.width : ℝ) * (cfg.pixelScale / 3600)) * 3600

/-- `_magnitude_to_flux`: `flux = 10 ** ((25 - magnitude) / 2.5)` floored at
one electron. -/
def magnitudeToFlux (m : ℝ) : ℝ := max 1.0 (Real.rpow 10 ((25.0 - m) / 2.5))

/-- `_generate_stellar_magnitude`: a `random()` draw selects the bright
(10 percent) or faint branch, then one uniform draw in the branch range. -/
def genStellarMagnitude (rng : RNG) (n : ℕ) : ℝ × ℕ :=
  (if rng.rand n < 0.1 then rng.unif 12.0 18.0 (n + 1) else rng.unif 18.0 25.0 (n + 1), n + 2)

/-- One iteration of the star loop of `_add_stars`: position, magnitude,
fwhm draws, then the PSF composite. -/
def addOneStar (cfg : Config) (rng : RNG) (s : Canvas × ℕ) : Canvas × ℕ :=
  let x := rng.unif 50 ((cfg.width : ℝ) - 50) s.2
  let y := rng.unif 50 ((cfg.height : ℝ) - 50) (s.2 + 1)
  let pMag := genStellarMagnitude rng (s.2 + 2)
  let flux := magnitudeToFlux pMag.1
  let fwhm := max 1.0 (rng.norm 2.0 0.3 pMag.2)
  (addStellarPsf s.1 x y flux fwhm cfg.width cfg.height, pMag.2 + 1)

/-- Bounded iteration of a stage step (the `for _ in range(n)` loops). -/
def iterateSteps {α : Type} (f : α → α) : ℕ → α → α
  | 0, s => s
  | k + 1, s => iterateSteps f k (f s)

/-- `_add_stars`: Poisson star count from density and field area, then the
star loop. -/
def addStars (cfg : Config) (rng : RNG) (image : Canvas) (n : ℕ) : Canvas × ℕ :=
  let numStars := rng.pois (cfg.starDensity * fieldArea cfg) n
  iterateSteps (addOneStar cfg rng) numStars (image, n + 1)

/-- One iteration of the galaxy loop of `_add_galaxies`. -/
def addOneGalaxy (cfg : Config) (rng : RNG) (s : Canvas × ℕ) : Canvas × ℕ :=
  let x := rng.unif 100 ((cfg.width : ℝ) - 100) s.2
  let y := rng.unif 100 ((cfg.height : ℝ) - 100) (s.2 + 1)
  let mag := rng.unif 18.0 27.0 (s.2 + 2)
  let flux := magnitudeToFlux mag
  let rEff := rng.expo 3.0 (s.2 + 3) + 1.0
  let axisRat := rng.unif 0.3 1.0 (s.2 + 4)
  let posAngle := rng.unif 0 180 (s.2 + 5)
  let sersicN : ℝ := if rng.choice 2 (s.2 + 6) = 0 then 1.0 else 4.0
  (addGalaxyProfile s.1 x y flux rEff axisRat posAngle sersicN cfg.width cfg.height, s.2 + 7)

/-- `_add_galaxies`. -/
def addGalaxies (cfg : Config) (rng : RNG) (image : Canvas) (n : ℕ) : Canvas × ℕ :=
  let numGalaxies := rng.pois (cfg.galaxyDensity * fieldArea cfg) n
  iterateSteps (addOneGalaxy cfg rng) numGalaxies (image, n + 1)

/-- Expected cosmic-ray hits
`cr_rate * total_pixels * (exposure_time / 3600)`. -/
def cosmicExpected (cfg : Config) (exposureTime : ℝ) : ℝ :=
  cfg.cosmicRayRate * ((cfg.height * cfg.width : ℕ) : ℝ) * (exposureTime / 3600)

/-- Actual cosmic-ray hit count, `poisson(expected_hits)`. -/
def cosmicNumHits (cfg : Config) (rng : RNG) (exposureTime : ℝ) (n : ℕ) : ℕ :=
  rng.pois (cosmicExpected cfg exposureTime) n

/-- One step of the cosmic-ray track walk: integer pixel offsets from
`int(i * cos)` / `int(i * sin)`, a linearly decaying deposit, and the
in-bounds check. -/
def depositStep (width height : ℕ) (x y : ℕ) (energy : ℝ) (len : ℕ) (angle : ℝ)
    (image : Canvas) (i : ℕ) : Canvas :=
  let dx := pyInt ((i : ℝ) * Real.cos angle)
  let dy := pyInt ((i : ℝ) * Real.sin angle)
  let newX := (x : ℤ) + dx
  let newY := (y : ℤ) + dy
  if 0 ≤ newX ∧ newX < (width : ℤ) ∧ 0 ≤ newY ∧ newY < (height : ℤ) then
    fun Y X =>
      if Y = newY ∧ X = newX then image Y X + energy * (1 - (i : ℝ) / (len : ℝ))
      else image Y X
  else image

/-- One iteration of the hit loop of `_add_cosmic_rays`: position, energy,
track length and angle draws, then the track walk. -/
def addOneCosmic (cfg : Config) (rng : RNG) (s : Canvas × ℕ) : Canvas × ℕ :=
  let x := rng.randint 0 cfg.width s.2
  let y := rng.randint 0 cfg.height (s.2 + 1)
  let energy := rng.expo 5000 (s.2 + 2) + 1000
  let len := rng.pois 3 (s.2 + 3) + 1
  let angle := rng.unif 0 (2 * Real.pi) (s.2 + 4)
  ((List.range len).foldl (depositStep cfg.width cfg.height x y energy len angle) s.1,
    s.2 + 5)

/-- `_add_cosmic_rays`. -/
def addCosmicRays (cfg : Config) (rng : RNG) (image : Canvas) (exposureTime : ℝ)
    (n : ℕ) : Canvas × ℕ :=
  iterateSteps (addOneCosmic cfg rng) (cosmicNumHits cfg rng exposureTime n) (image, n + 1)

/-- `_add_noise`: zero-mean Gaussian read noise added to every pixel
(one array draw). -/
def addNoise (cfg : Config) (rng : RNG) (image : Canvas) (n : ℕ) : Canvas × ℕ :=
  (fun Y X =>
    if 0 ≤ Y ∧ Y < (cfg.height : ℤ) ∧ 0 ≤ X ∧ X < (cfg.width : ℤ) then
      image Y X + rng.normArr 0 cfg.readNoise n Y X
    else image Y X, n + 1)

/-- Detector response: `image = image / gain` followed by
`np.clip(image, 0, saturation_level)`, which numpy evaluates as
`minimum(a_max, maximum(a, a_min))`. -/
def detectorResponse (gain saturationLevel v : ℝ) : ℝ :=
  min saturationLevel (max 0 (v / gain))

/-- The unsigned 16-bit cast `astype(np.uint16)` applied when building the
primary HDU: truncation toward zero, then reduction modulo 2^16. -/
def astypeUint16 (v : ℝ) : ℤ := pyInt v % 65536

/-- The WCS parameter set built by `_create_wcs`. -/
structure WCSFrame where
  crpix1 : ℝ
  crpix2 : ℝ
  crval1 : ℝ
  crval2 : ℝ
  cdelt1 : ℝ
  cdelt2 : ℝ
  ctype1 : String
  ctype2 : String
  cunit1 : String
  cunit2 : String

/-- `_create_wcs(ra, dec, width, height)`: reference pixel at the image
center, reference coordinate at the target, pixel scale in degrees with the
RA axis negated, TAN projection. -/
def createWCS (pixelScale ra dec : ℝ) (width height : ℕ) : WCSFrame where
  crpix1 := (width : ℝ) / 2
  crpix2 := (height : ℝ) / 2
  crval1 := ra
  crval2 := dec
  cdelt1 := -(pixelScale / 3600)
  cdelt2 := pixelScale / 3600
  ctype1 := "RA---TAN"
  ctype2 := "DEC--TAN"
  cunit1 := "deg"
  cunit2 := "deg"

/-- The stochastic header fields drawn by `_create_fits_header`
(observation-date offset, airmass, seeing); they consume three draws after
the image and the WCS are complete. -/
structure Header where
  dateOffsetDays : ℕ
  airmass : ℝ
  seeing : ℝ

/-- `_create_fits_header` draw sequence. -/
def createFitsHeader (rng : RNG) (n : ℕ) : Header × ℕ :=
  ({ dateOffsetDays := rng.randint 1 365 n
     airmass := rng.unif 1.0 2.5 (n + 1)
     seeing := rng.norm 1.2 0.3 (n + 2) }, n + 3)

/-- The per-image output handed to the serialization collaborator: the
clipped float image, the delivered uint16 array, the WCS frame, and the
pass-through header metadata. -/
structure FitsOutput where
  floatImage : Canvas
  pixels : ℤ → ℤ → ℤ
  wcs : WCSFrame
  header : Header
  telescopeIdx : ℕ
  instrumentIdx : ℕ
  filterIdx : ℕ

/-- An optional per-image request parameter: when absent the code draws it
(`if target_ra is None: ... uniform(...)`), consuming one call. -/
def drawIfNone {α : Type} (v : Option α) (draw : α) (n : ℕ) : α × ℕ :=
  match v with
  | some w => (w, n)
  | none => (draw, n + 1)

/-- The canvas stages of `generate_fits_file` before the read-noise stage:
zero canvas, sky background, stars, galaxies, cosmic rays. -/
def stagesPreNoise (cfg : Config) (rng : RNG) (exposureTime : ℝ) (n : ℕ) : Canvas × ℕ :=
  let s1 := applySky cfg rng zeroCanvas n
  let s2 := addStars cfg rng s1.1 s1.2
  let s3 := addGalaxies cfg rng s2.1 s2.2
  addCosmicRays cfg rng s3.1 exposureTime s3.2

/-- `generate_fits_file`: optional-parameter draws, the stage sequence, the
detector response, the WCS build, and the header draws, in source order. -/
def generateFitsFile (cfg : Config) (rng : RNG) (n0 : ℕ) (targetRa targetDec : Option ℝ)
    (exposureTime : ℝ) (telescope instrument filterName : Option ℕ) : FitsOutput × ℕ :=
  let pRa := drawIfNone targetRa (rng.unif 0 360 n0) n0
  let pDec := drawIfNone targetDec (rng.unif (-90) 90 pRa.2) pRa.2
  let pTel := drawIfNone telescope (rng.choice cfg.numTelescopes pDec.2) pDec.2
  let pInst := drawIfNone instrument (rng.choice cfg.numInstruments pTel.2) pTel.2
  let pFilt := drawIfNone filterName (rng.choice cfg.numFilters pInst.2) pInst.2
  let s4 := stagesPreNoise cfg rng exposureTime pFilt.2
  let s5 := addNoise cfg rng s4.1 s4.2
  let finalImage : Canvas := fun Y X =>
    detectorResponse cfg.gain cfg.saturationLevel (s5.1 Y X)
  let hd := createFitsHeader rng s5.2
  ({ floatImage := finalImage
     pixels := fun Y X => astypeUint16 (finalImage Y X)
     wcs := createWCS cfg.pixelScale pRa.1 pDec.1 cfg.width cfg.height
     header := hd.1
     telescopeIdx := pTel.1
     instrumentIdx := pInst.1
     filterIdx := pFilt.1 }, hd.2)

/-- The exposure-time options of `generate_batch`. -/
def exposureChoices : List ℝ := [60, 120, 300, 600, 900]

/-- One iteration of the batch loop of `generate_batch`: the per-image
pointing and exposure draws, then `generate_fits_file` with telescope,
instrument and filter left unspecified — all draws come from the single
shared generator, continuing at the current counter. -/
def batchIteration (cfg : Config) (rng : RNG) (s : List FitsOutput × ℕ) :
    List FitsOutput × ℕ :=
  let ra := rng.unif 0 360 s.2
  let dec := rng.unif (-30) 60 (s.2 + 1)
  let exposure := exposureChoices.getD (rng.choice 5 (s.2 + 2)) 0
  let out := generateFitsFile cfg rng (s.2 + 3) (some ra) (some dec) exposure none none none
  (s.1 ++ [out.1], out.2)

/-- `generate_batch(output_dir, count)`: the batch loop starting from the
freshly constructed generator (counter 0). -/
def generateBatch (cfg : Config) (rng : RNG) (count : ℕ) : List FitsOutput × ℕ :=
  iterateSteps (batchIteration cfg rng) count ([], 0)

/-- Placeholder output used only as the default of list indexing. -/
def dummyOutput : FitsOutput where
  floatImage := zeroCanvas
  pixels := fun _ _ => 0
  wcs := createWCS 0 0 0 0 0
  header := { dateOffsetDays := 0, airmass := 0, seeing := 0 }
  telescopeIdx := 0
  instrumentIdx := 0
  filterIdx := 0

/-- An oracle whose streams are identically zero. -/
def rngZero : RNG where
  unif := fun _ _ _ => 0
  pois := fun _ _ => 0
  norm := fun _ _ _ => 0
  expo := fun _ _ => 0
  randint := fun _ _ _ => 0
  choice := fun _ _ => 0
  rand := fun _ => 0
  poisArr := fun _ _ _ _ => 0
  normArr := fun _ _ _ _ _ => 0

/-- An oracle whose read-noise draws are all `-1` (a possible realization of
zero-mean Gaussian noise). -/
def rngNegNoise : RNG := { rngZero with normArr := fun _ _ _ _ _ => -1 }

/-- An oracle whose sky draws record the position of the sky call in the
run, so a shifted call position becomes visible in the pixels. -/
def rngSeqA : RNG := { rngZero with poisArr := fun _ n _ _ => n }

/-- Identical to `rngSeqA` except for the single scalar Poisson draw at call
position 7 (the star-count draw of the first batch image), which returns 1
instead of 0. -/
def rngSeqB : RNG := { rngSeqA with pois := fun _ n => if n = 7 then 1 else 0 }

/-- A 1 × 1 field with unit gain, used to trace batch draw positions. -/
def cfgTiny : Config :=
  { defaultConfig with height := 1, width := 1, gain := 1, cosmicRayRate := 0 }

/-- The default configuration with a zero pixel scale — invalid per the
error-handling design, which demands a fail-fast `ConfigurationError`. -/
def cfgZeroScale : Config := { defaultConfig with pixelScale := 0 }

/-- The default configuration with a negative saturation level. -/
def cfgNegSat : Config := { defaultConfig with saturationLevel := -1 }

/-! Basic facts about the flux conversion. -/

lemma one_le_magnitudeToFlux (m : ℝ) : 1 ≤ magnitudeToFlux m :=
  le_trans (by norm_num) (le_max_left 1.0 _)

lemma magnitudeToFlux_nonneg (m : ℝ) : 0 ≤ magnitudeToFlux m :=
  le_trans (by norm_num) (one_le_magnitudeToFlux m)

/-- Claim C1: with a fully specified request, two pipeline runs each starting
from a freshly constructed generator with the same seed produce bit-identical
pixel arrays (both the clipped float image and the delivered uint16 array)
and identical WCS parameters; the pass-through telescope, instrument and
filter identifiers do not influence pixels or WCS at all. -/
theorem c1_determinism (mkRNG : ℤ → RNG) (seed : ℤ) (cfg : Config)
    (ra dec exposureTime : ℝ) (tel inst filt tel2 inst2 filt2 : ℕ) :
    (generateFitsFile cfg (mkRNG seed) 0 (some ra) (some dec) exposureTime
        (some tel) (some inst) (some filt)).1.pixels =
      (generateFitsFile cfg (mkRNG seed) 0 (some ra) (some dec) exposureTime
        (some tel2) (some inst2) (some filt2)).1.pixels ∧
    (generateFitsFile cfg (mkRNG seed) 0 (some ra) (some dec) exposureTime
        (some tel) (some inst) (some filt)).1.floatImage =
      (generateFitsFile cfg (mkRNG seed) 0 (some ra) (some dec) exposureTime
        (some tel2) (some inst2) (some filt2)).1.floatImage ∧
    (generateFitsFile cfg (mkRNG seed) 0 (some ra) (some dec) exposureTime
        (some tel) (some inst) (some filt)).1.wcs =
      (generateFitsFile cfg (mkRNG seed) 0 (some ra) (some dec) exposureTime
        (some tel2) (some inst2) (some filt2)).1.wcs :=
  ⟨rfl, rfl, rfl⟩

/-- Claim C3 counterexample: with a negative saturation level (a numeric
configuration the error-handling design does not rule out), the final
clip `np.clip(image, 0, saturation_level)` sets every pixel to the negative
saturation level, so the output violates `0 ≤ pixel_value`. -/
theorem c3_counterexample :
    (generateFitsFile cfgNegSat rngZero 0 (some 150) (some 2) 300 (some 0) (some 0)
        (some 0)).1.floatImage 0 0 < 0 := by
  norm_num [generateFitsFile, drawIfNone, stagesPreNoise, applySky, addStars,
    addGalaxies, addCosmicRays, cosmicNumHits, addNoise, iterateSteps,
    detectorResponse, cfgNegSat, defaultConfig, rngZero, zeroCanvas]

/-- Claim C3 (amended): for every configuration with a non-negative
saturation level, every pixel of the final output image lies in
`[0, saturation_level]`, for every oracle and hence every sequence of
preceding stage effects. -/
theorem c3_saturation_amended (cfg : Config) (rng : RNG) (n0 : ℕ)
    (ra dec exposureTime : ℝ) (tel inst filt : ℕ) (Y X : ℤ)
    (hsat : 0 ≤ cfg.saturationLevel) :
    0 ≤ (generateFitsFile cfg rng n0 (some ra) (some dec) exposureTime (some tel)
        (some inst) (some filt)).1.floatImage Y X ∧
    (generateFitsFile cfg rng n0 (some ra) (some dec) exposureTime (some tel)
        (some inst) (some filt)).1.floatImage Y X ≤ cfg.saturationLevel :=
  ⟨le_min hsat (le_max_left 0 _), min_le_left _ _⟩

/-- Witness for the amended C3 at the default configuration. -/
theorem c3_saturation_witness :
    0 ≤ (generateFitsFile defaultConfig rngZero 0 (some 150) (some 2) 300 (some 0)
        (some 0) (some 0)).1.floatImage 0 0 ∧
    (generateFitsFile defaultConfig rngZero 0 (some 150) (some 2) 300 (some 0)
        (some 0) (some 0)).1.floatImage 0 0 ≤ defaultConfig.saturationLevel :=
  c3_saturation_amended defaultConfig rngZero 0 150 2 300 0 0 0 0 0
    (by norm_num [defaultConfig])

/-- Claim C4 counterexample: the flux floor `max(1.0, flux)` makes
`_magnitude_to_flux` constant beyond magnitude 25, so it is not strictly
decreasing: magnitudes 26 and 27 both map to one electron. -/
theorem c4_counterexample :
    (26 : ℝ) < 27 ∧ magnitudeToFlux 26 = magnitudeToFlux 27 := by
  refine ⟨by norm_num, ?_⟩
  have h26 : Real.rpow 10 ((25.0 - 26) / 2.5) ≤ 1.0 := by
    refine le_trans (Real.rpow_le_one_of_one_le_of_nonpos (by norm_num) (by norm_num)) ?_
    norm_num
  have h27 : Real.rpow 10 ((25.0 - 27) / 2.5) ≤ 1.0 := by
    refine le_trans (Real.rpow_le_one_of_one_le_of_nonpos (by norm_num) (by norm_num)) ?_
    norm_num
  unfold magnitudeToFlux
  rw [max_eq_left h26, max_eq_left h27]

/-- Claim C4 (amended): `_magnitude_to_flux` is bounded below by one
electron everywhere, is non-increasing in magnitude, and is strictly
decreasing on the range of magnitudes not clipped by the one-electron floor
(m ≤ 25, the zeropoint). -/
theorem c4_monotone_amended :
    (∀ m : ℝ, 1 ≤ magnitudeToFlux m) ∧
    (∀ m1 m2 : ℝ, m1 ≤ m2 → magnitudeToFlux m2 ≤ magnitudeToFlux m1) ∧
    (∀ m1 m2 : ℝ, m1 < m2 → m2 ≤ 25 → magnitudeToFlux m2 < magnitudeToFlux m1) := by
  have hb : (1 : ℝ) < 10 := by norm_num
  refine ⟨one_le_magnitudeToFlux, ?_, ?_⟩
  · intro m1 m2 h
    unfold magnitudeToFlux
    refine max_le_max le_rfl ((Real.rpow_le_rpow_left_iff hb).2 ?_)
    gcongr
  · intro m1 m2 h12 h25
    have h1le : (1 : ℝ) ≤ Real.rpow 10 ((25.0 - m2) / 2.5) := by
      calc (1 : ℝ) = Real.rpow 10 0 := (Real.rpow_zero 10).symm
        _ ≤ Real.rpow 10 ((25.0 - m2) / 2.5) :=
          (Real.rpow_le_rpow_left_iff hb).2 (div_nonneg (by linarith) (by norm_num))
    have hlt : Real.rpow 10 ((25.0 - m2) / 2.5) < Real.rpow 10 ((25.0 - m1) / 2.5) := by
      refine (Real.rpow_lt_rpow_left_iff hb).2 ?_
      gcongr
    unfold magnitudeToFlux
    rw [max_eq_right (le_trans (by norm_num) h1le)]
    exact lt_of_lt_of_le hlt (le_max_right _ _)

/-- Witness for the amended C4 at concrete magnitudes. -/
theorem c4_monotone_witness :
    1 ≤ magnitudeToFlux 30 ∧ magnitudeToFlux 25 < magnitudeToFlux 24 :=
  ⟨c4_monotone_amended.1 30,
   c4_monotone_amended.2.2 24 25 (by norm_num) (by norm_num)⟩

/-- Claim C7: with zero exposure time the expected cosmic-ray count is zero,
so (for any sampler that returns 0 on a zero Poisson mean, as numpy does)
the stage produces exactly zero hits and returns the canvas unchanged, for
every cosmic-ray rate. -/
theorem c7_zero_exposure (cfg : Config) (rng : RNG) (image : Canvas) (n : ℕ)
    (hp : ∀ k, rng.pois 0 k = 0) :
    cosmicNumHits cfg rng 0 n = 0 ∧
    addCosmicRays cfg rng image 0 n = (image, n + 1) := by
  have he : cosmicExpected cfg 0 = 0 := by simp [cosmicExpected]
  have h0 : cosmicNumHits cfg rng 0 n = 0 := by rw [cosmicNumHits, he, hp]
  refine ⟨h0, ?_⟩
  rw [addCosmicRays, h0]
  rfl

/-- Witness for C7: the concrete all-zero oracle satisfies the Poisson-zero
law, and the stage is the identity on the canvas. -/
theorem c7_zero_exposure_witness :
    cosmicNumHits defaultConfig rngZero 0 0 = 0 ∧
    addCosmicRays defaultConfig rngZero zeroCanvas 0 0 = (zeroCanvas, 1) :=
  c7_zero_exposure defaultConfig rngZero zeroCanvas 0 (fun _ => rfl)

/-- Claim C8: the built WCS frame has crpix at the image center, crval at
the target, cdelt `(-s/3600, s/3600)` degrees and TAN axis types, and the
pipeline's WCS is exactly this pure function of target and geometry — it
reads no canvas and no random state. -/
theorem c8_wcs (ps ra dec : ℝ) (w h : ℕ) :
    (createWCS ps ra dec w h).crpix1 = (w : ℝ) / 2 ∧
    (createWCS ps ra dec w h).crpix2 = (h : ℝ) / 2 ∧
    (createWCS ps ra dec w h).crval1 = ra ∧
    (createWCS ps ra dec w h).crval2 = dec ∧
    (createWCS ps ra dec w h).cdelt1 = -(ps / 3600) ∧
    (createWCS ps ra dec w h).cdelt2 = ps / 3600 ∧
    (createWCS ps ra dec w h).ctype1 = "RA---TAN" ∧
    (createWCS ps ra dec w h).ctype2 = "DEC--TAN" ∧
    ∀ (cfg : Config) (rng : RNG) (n0 : ℕ) (exposureTime : ℝ) (tel inst filt : ℕ),
      (generateFitsFile cfg rng n0 (some ra) (some dec) exposureTime (some tel)
          (some inst) (some filt)).1.wcs =
        createWCS cfg.pixelScale ra dec cfg.width cfg.height :=
  ⟨rfl, rfl, rfl, rfl, rfl, rfl, rfl, rfl, fun _ _ _ _ _ _ _ => rfl⟩

/-- Claim C10: the delivered array is the clipped value truncated toward
zero and reduced modulo 2^16; when the saturation level is at most 65535
every delivered value lies in `[0, saturation_level]`, and when it exceeds
65535 a clipped value above 65535 is delivered strictly smaller than the
clipped value (wraparound or truncation below it). -/
theorem c10_uint16_cast :
    (∀ gain sat v : ℝ, 0 ≤ sat → sat ≤ 65535 →
      0 ≤ astypeUint16 (detectorResponse gain sat v) ∧
      ((astypeUint16 (detectorResponse gain sat v) : ℝ) ≤ sat)) ∧
    (∀ sat : ℝ, 65535 < sat → ∃ v : ℝ,
      65535 < detectorResponse 1 sat v ∧
      ((astypeUint16 (detectorResponse 1 sat v) : ℝ) < detectorResponse 1 sat v)) := by
  constructor
  · intro gain sat v h0 h1
    have hc0 : 0 ≤ detectorResponse gain sat v := le_min h0 (le_max_left 0 _)
    have hcs : detectorResponse gain sat v ≤ sat := min_le_left _ _
    have hpy : pyInt (detectorResponse gain sat v) = ⌊detectorResponse gain sat v⌋ := by
      rw [pyInt, if_pos hc0]
    have hfl0 : 0 ≤ ⌊detectorResponse gain sat v⌋ := Int.floor_nonneg.2 hc0
    have hfllt : ⌊detectorResponse gain sat v⌋ < 65536 := by
      rw [Int.floor_lt]
      push_cast
      linarith
    rw [astypeUint16, hpy, Int.emod_eq_of_lt hfl0 hfllt]
    exact ⟨hfl0, le_trans (Int.floor_le _) hcs⟩
  · intro sat hs
    rcases le_or_lt 65536 sat with hge | hlt
    · refine ⟨65536, ?_, ?_⟩
      · have hdr : detectorResponse 1 sat 65536 = 65536 := by
          rw [detectorResponse, div_one, max_eq_right (by norm_num : (0:ℝ) ≤ 65536)]
          exact min_eq_right hge
        rw [hdr]; norm_num
      · have hdr : detectorResponse 1 sat 65536 = 65536 := by
          rw [detectorResponse, div_one, max_eq_right (by norm_num : (0:ℝ) ≤ 65536)]
          exact min_eq_right hge
        have hcast : ((65536 : ℝ)) = (((65536 : ℤ)) : ℝ) := by norm_num
        have hval : astypeUint16 65536 = 0 := by
          rw [astypeUint16, pyInt, if_pos (by norm_num : (0:ℝ) ≤ 65536), hcast,
            Int.floor_intCast]
          decide
        rw [hdr, hval]
        norm_num
    · refine ⟨sat, ?_, ?_⟩
      · have hdr : detectorResponse 1 sat sat = sat := by
          rw [detectorResponse, div_one, max_eq_right (by linarith : (0:ℝ) ≤ sat)]
          exact min_self sat
        rw [hdr]; exact hs
      · have hdr : detectorResponse 1 sat sat = sat := by
          rw [detectorResponse, div_one, max_eq_right (by linarith : (0:ℝ) ≤ sat)]
          exact min_self sat
        have hf : ⌊sat⌋ = 65535 := by
          rw [Int.floor_eq_iff]
          push_cast
          constructor <;> linarith
        have hval : astypeUint16 sat = 65535 := by
          rw [astypeUint16, pyInt, if_pos (by linarith : (0:ℝ) ≤ sat), hf]
          decide
        rw [hdr, hval]
        push_cast
        linarith

/-! Flux-conservation machinery: relating the boundary-safe composite to
sums over the stamp. -/

lemma stampSize_pos (s : ℝ) : 0 < stampSize s := by
  rw [stampSize]
  split <;> omega

lemma psfEntry_pos (fwhm : ℝ) (i j : ℤ) : 0 < psfEntry fwhm i j := by
  simp only [psfEntry]
  exact Real.exp_pos _

lemma galEntry_pos (rEff axisRat posAngle sersicN : ℝ) (i j : ℤ) :
    0 < galEntry rEff axisRat posAngle sersicN i j := by
  simp only [galEntry]
  split <;> exact Real.exp_pos _

lemma stampSum_pos (size : ℕ) (hs : 0 < size) (e : ℤ → ℤ → ℝ)
    (he : ∀ i j, 0 < e i j) : 0 < stampSum size e := by
  have hne : (Finset.Ico (0 : ℤ) (size : ℤ)).Nonempty := by
    rw [Finset.nonempty_Ico]
    exact_mod_cast hs
  exact Finset.sum_pos (fun i _ => Finset.sum_pos (fun j _ => he i j) hne) hne

lemma normEntry_nonneg (size : ℕ) (hs : 0 < size) (e : ℤ → ℤ → ℝ)
    (he : ∀ i j, 0 < e i j) (flux : ℝ) (hflux : 0 ≤ flux) (i j : ℤ) :
    0 ≤ normEntry size e flux i j :=
  mul_nonneg (div_nonneg (he i j).le (stampSum_pos size hs e he).le) hflux

lemma stampSum_normEntry (size : ℕ) (e : ℤ → ℤ → ℝ) (flux : ℝ)
    (hS : stampSum size e ≠ 0) : stampSum size (normEntry size e flux) = flux := by
  have hterm : ∀ i j : ℤ, normEntry size e flux i j = e i j * (flux / stampSum size e) := by
    intro i j
    rw [normEntry]
    ring
  calc stampSum size (normEntry size e flux)
      = ∑ i in Finset.Ico (0 : ℤ) (size : ℤ), ∑ j in Finset.Ico (0 : ℤ) (size : ℤ),
          e i j * (flux / stampSum size e) := by
        rw [stampSum]
        exact Finset.sum_congr rfl fun i _ => Finset.sum_congr rfl fun j _ => hterm i j
    _ = (∑ i in Finset.Ico (0 : ℤ) (size : ℤ), ∑ j in Finset.Ico (0 : ℤ) (size : ℤ), e i j) *
          (flux / stampSum size e) := by
        simp only [← Finset.sum_mul]
    _ = stampSum size e * (flux / stampSum size e) := by rw [← stampSum]
    _ = flux := by field_simp

lemma sum_Ico_shift (f : ℤ → ℝ) (a b c : ℤ) :
    ∑ t in Finset.Ico a b, f t = ∑ t in Finset.Ico (a - c) (b - c), f (t + c) := by
  have hmap : Finset.Ico a b = (Finset.Ico (a - c) (b - c)).map (addRightEmbedding c) := by
    rw [Finset.map_add_right_Ico]
    congr 1 <;> ring
  rw [hmap, Finset.sum_map]
  simp [addRightEmbedding]

/-- The total value the composite adds to the canvas is the sum of the
stamp entries over the clipped index rectangle (in stamp coordinates). -/
lemma addedTotal_composite (image : Canvas) (size : ℕ) (e : ℤ → ℤ → ℝ)
    (xs ys : ℤ) (w h : ℕ) :
    addedTotal w h image (compositeStamp image size e xs ys w h) =
      ∑ i in Finset.Ico (max 0 ys - ys) (min (h : ℤ) (ys + (size : ℤ)) - ys),
        ∑ j in Finset.Ico (max 0 xs - xs) (min (w : ℤ) (xs + (size : ℤ)) - xs),
          e i j := by
  have hstep : ∀ Y X : ℤ,
      compositeStamp image size e xs ys w h Y X - image Y X =
        if Y ∈ Finset.Ico (max 0 ys) (min (h : ℤ) (ys + (size : ℤ))) ∧
            X ∈ Finset.Ico (max 0 xs) (min (w : ℤ) (xs + (size : ℤ))) then
          e (Y - ys) (X - xs)
        else 0 := by
    intro Y X
    simp only [compositeStamp, Finset.mem_Ico]
    by_cases hcond : (max 0 ys ≤ Y ∧ Y < min (h : ℤ) (ys + (size : ℤ))) ∧
        (max 0 xs ≤ X ∧ X < min (w : ℤ) (xs + (size : ℤ)))
    · rw [if_pos (⟨hcond.1.1, hcond.1.2, hcond.2.1, hcond.2.2⟩ :
        max 0 ys ≤ Y ∧ Y < min (h : ℤ) (ys + (size : ℤ)) ∧
          max 0 xs ≤ X ∧ X < min (w : ℤ) (xs + (size : ℤ))), if_pos hcond]
      ring
    · rw [if_neg (fun hx => hcond ⟨⟨hx.1, hx.2.1⟩, hx.2.2.1, hx.2.2.2⟩ :
        ¬(max 0 ys ≤ Y ∧ Y < min (h : ℤ) (ys + (size : ℤ)) ∧
          max 0 xs ≤ X ∧ X < min (w : ℤ) (xs + (size : ℤ)))), if_neg hcond]
      ring
  calc addedTotal w h image (compositeStamp image size e xs ys w h)
      = ∑ Y in Finset.Ico (0 : ℤ) (h : ℤ), ∑ X in Finset.Ico (0 : ℤ) (w : ℤ),
          (compositeStamp image size e xs ys w h Y X - image Y X) := by
        rw [addedTotal, canvasSum, canvasSum, ← Finset.sum_sub_distrib]
        exact Finset.sum_congr rfl fun Y _ => Finset.sum_sub_distrib.symm
    _ = ∑ Y in Finset.Ico (0 : ℤ) (h : ℤ), ∑ X in Finset.Ico (0 : ℤ) (w : ℤ),
          (if Y ∈ Finset.Ico (max 0 ys) (min (h : ℤ) (ys + (size : ℤ))) ∧
              X ∈ Finset.Ico (max 0 xs) (min (w : ℤ) (xs + (size : ℤ))) then
            e (Y - ys) (X - xs) else 0) :=
        Finset.sum_congr rfl fun Y _ => Finset.sum_congr rfl fun X _ => hstep Y X
    _ = ∑ Y in Finset.Ico (0 : ℤ) (h : ℤ),
          (if Y ∈ Finset.Ico (max 0 ys) (min (h : ℤ) (ys + (size : ℤ))) then
            ∑ X in Finset.Ico (0 : ℤ) (w : ℤ),
              (if X ∈ Finset.Ico (max 0 xs) (min (w : ℤ) (xs + (size : ℤ))) then
                e (Y - ys) (X - xs) else 0)
          else 0) := by
        refine Finset.sum_congr rfl fun Y _ => ?_
        by_cases hY : Y ∈ Finset.Ico (max 0 ys) (min (h : ℤ) (ys + (size : ℤ)))
        · simp [hY]
        · simp [hY]
    _ = ∑ Y in Finset.Ico (max 0 ys) (min (h : ℤ) (ys + (size : ℤ))),
          ∑ X in Finset.Ico (0 : ℤ) (w : ℤ),
            (if X ∈ Finset.Ico (max 0 xs) (min (w : ℤ) (xs + (size : ℤ))) then
              e (Y - ys) (X - xs) else 0) := by
        rw [Finset.sum_ite_mem]
        congr 1
        rw [Finset.Ico_inter_Ico]
        congr 1 <;> omega
    _ = ∑ Y in Finset.Ico (max 0 ys) (min (h : ℤ) (ys + (size : ℤ))),
          ∑ X in Finset.Ico (max 0 xs) (min (w : ℤ) (xs + (size : ℤ))),
            e (Y - ys) (X - xs) := by
        refine Finset.sum_congr rfl fun Y _ => ?_
        rw [Finset.sum_ite_mem]
        congr 1
        rw [Finset.Ico_inter_Ico]
        congr 1 <;> omega
    _ = ∑ i in Finset.Ico (max 0 ys - ys) (min (h : ℤ) (ys + (size : ℤ)) - ys),
          ∑ j in Finset.Ico (max 0 xs - xs) (min (w : ℤ) (xs + (size : ℤ)) - xs),
            e i j := by
        rw [sum_Ico_shift
          (fun Y => ∑ X in Finset.Ico (max 0 xs) (min (w : ℤ) (xs + (size : ℤ))),
            e (Y - ys) (X - xs)) (max 0 ys) (min (h : ℤ) (ys + (size : ℤ))) ys]
        refine Finset.sum_congr rfl fun i _ => ?_
        rw [sum_Ico_shift (fun X => e (i + ys - ys) (X - xs)) (max 0 xs)
          (min (w : ℤ) (xs + (size : ℤ))) xs]
        refine Finset.sum_congr rfl fun j _ => ?_
        simp [add_sub_cancel_right]

lemma clip_sub_subset (v : ℤ) (size : ℕ) (b : ℕ) :
    Finset.Ico (max 0 v - v) (min (b : ℤ) (v + (size : ℤ)) - v) ⊆
      Finset.Ico (0 : ℤ) (size : ℤ) := by
  apply Finset.Ico_subset_Ico <;> omega

lemma clippedSum_le (size : ℕ) (f : ℤ → ℤ → ℝ) (hf : ∀ i j, 0 ≤ f i j)
    (xs ys : ℤ) (w h : ℕ) :
    ∑ i in Finset.Ico (max 0 ys - ys) (min (h : ℤ) (ys + (size : ℤ)) - ys),
      ∑ j in Finset.Ico (max 0 xs - xs) (min (w : ℤ) (xs + (size : ℤ)) - xs), f i j ≤
    stampSum size f := by
  rw [stampSum]
  calc ∑ i in Finset.Ico (max 0 ys - ys) (min (h : ℤ) (ys + (size : ℤ)) - ys),
        ∑ j in Finset.Ico (max 0 xs - xs) (min (w : ℤ) (xs + (size : ℤ)) - xs), f i j
      ≤ ∑ i in Finset.Ico (max 0 ys - ys) (min (h : ℤ) (ys + (size : ℤ)) - ys),
          ∑ j in Finset.Ico (0 : ℤ) (size : ℤ), f i j :=
        Finset.sum_le_sum fun i _ =>
          Finset.sum_le_sum_of_subset_of_nonneg (clip_sub_subset xs size w)
            (fun j _ _ => hf i j)
    _ ≤ ∑ i in Finset.Ico (0 : ℤ) (size : ℤ), ∑ j in Finset.Ico (0 : ℤ) (size : ℤ), f i j :=
        Finset.sum_le_sum_of_subset_of_nonneg (clip_sub_subset ys size h)
          (fun i _ _ => Finset.sum_nonneg fun j _ => hf i j)

lemma inside_ranges (v : ℤ) (size b : ℕ) (h0 : 0 ≤ v) (hb : v + (size : ℤ) ≤ (b : ℤ)) :
    Finset.Ico (max 0 v - v) (min (b : ℤ) (v + (size : ℤ)) - v) =
      Finset.Ico (0 : ℤ) (size : ℤ) := by
  congr 1 <;> omega

/-- Combined inequality and fully-inside equality for one normalized stamp
composite. -/
lemma composite_le_and_eq (image : Canvas) (size : ℕ) (hs : 0 < size)
    (e : ℤ → ℤ → ℝ) (he : ∀ i j, 0 < e i j) (flux : ℝ) (hflux : 0 ≤ flux)
    (xs ys : ℤ) (w h : ℕ) :
    addedTotal w h image (compositeStamp image size (normEntry size e flux) xs ys w h) ≤
      flux ∧
    ((0 ≤ xs ∧ xs + (size : ℤ) ≤ (w : ℤ) ∧ 0 ≤ ys ∧ ys + (size : ℤ) ≤ (h : ℤ)) →
      addedTotal w h image (compositeStamp image size (normEntry size e flux) xs ys w h) =
        flux) := by
  have hSpos := stampSum_pos size hs e he
  have hnorm := stampSum_normEntry size e flux hSpos.ne'
  constructor
  · rw [addedTotal_composite]
    refine le_trans
      (clippedSum_le size _ (normEntry_nonneg size hs e he flux hflux) xs ys w h) ?_
    rw [hnorm]
  · rintro ⟨hx0, hxw, hy0, hyh⟩
    rw [addedTotal_composite, inside_ranges xs size w hx0 hxw,
      inside_ranges ys size h hy0 hyh, ← stampSum]
    exact hnorm

/-- Claim C2: for every star or galaxy, the total value the composite adds
to the canvas is at most the requested flux, with exact equality (in exact
arithmetic) whenever the rendered stamp lies fully inside the canvas
bounds. -/
theorem c2_flux_conservation (image : Canvas)
    (x y flux fwhm rEff axisRat posAngle sersicN : ℝ) (w h : ℕ)
    (hfw : 0 < fwhm) (hre : 0 < rEff) (hflux : 0 ≤ flux) :
    (addedTotal w h image (addStellarPsf image x y flux fwhm w h) ≤ flux ∧
      ((0 ≤ pyInt (x - (psfCenter fwhm : ℝ)) ∧
          pyInt (x - (psfCenter fwhm : ℝ)) + (psfSize fwhm : ℤ) ≤ (w : ℤ) ∧
          0 ≤ pyInt (y - (psfCenter fwhm : ℝ)) ∧
          pyInt (y - (psfCenter fwhm : ℝ)) + (psfSize fwhm : ℤ) ≤ (h : ℤ)) →
        addedTotal w h image (addStellarPsf image x y flux fwhm w h) = flux)) ∧
    (addedTotal w h image
        (addGalaxyProfile image x y flux rEff axisRat posAngle sersicN w h) ≤ flux ∧
      ((0 ≤ pyInt (x - (galCenter rEff : ℝ)) ∧
          pyInt (x - (galCenter rEff : ℝ)) + (galSize rEff : ℤ) ≤ (w : ℤ) ∧
          0 ≤ pyInt (y - (galCenter rEff : ℝ)) ∧
          pyInt (y - (galCenter rEff : ℝ)) + (galSize rEff : ℤ) ≤ (h : ℤ)) →
        addedTotal w h image
          (addGalaxyProfile image x y flux rEff axisRat posAngle sersicN w h) = flux)) :=
  ⟨composite_le_and_eq image (psfSize fwhm) (stampSize_pos _) (psfEntry fwhm)
      (psfEntry_pos fwhm) flux hflux _ _ w h,
   composite_le_and_eq image (galSize rEff) (stampSize_pos _)
      (galEntry rEff axisRat posAngle sersicN)
      (galEntry_pos rEff axisRat posAngle sersicN) flux hflux _ _ w h⟩

/-- Witness for C2: with `fwhm = 2 sqrt(2 log 2)` (sigma exactly one) and
`r_eff = 1`, both stamps have side 7 and, centered at (10, 10) on a
100 × 100 canvas, lie fully inside, so the composite adds exactly the
requested unit flux. -/
theorem c2_flux_conservation_witness :
    addedTotal 100 100 zeroCanvas
      (addStellarPsf zeroCanvas 10 10 1 (2 * Real.sqrt (2 * Real.log 2)) 100 100) = 1 ∧
    addedTotal 100 100 zeroCanvas
      (addGalaxyProfile zeroCanvas 10 10 1 1 1 0 1 100 100) = 1 := by
  have hlog : 0 < Real.log 2 := Real.log_pos (by norm_num)
  have hfw0 : 0 < 2 * Real.sqrt (2 * Real.log 2) :=
    mul_pos two_pos (Real.sqrt_pos.2 (by linarith))
  have hsig : gaussSigma (2 * Real.sqrt (2 * Real.log 2)) = 1 := div_self hfw0.ne'
  have h6 : pyInt (6 * (1 : ℝ)) = 6 := by
    rw [pyInt, if_pos (by norm_num), show (6 * (1 : ℝ)) = ((6 : ℤ) : ℝ) by norm_num,
      Int.floor_intCast]
  have hone : stampSize (1 : ℝ) = 7 := by
    simp only [stampSize, h6]
    decide
  have hsize : psfSize (2 * Real.sqrt (2 * Real.log 2)) = 7 := by
    rw [psfSize, hsig, hone]
  have hcenter : psfCenter (2 * Real.sqrt (2 * Real.log 2)) = 3 := by
    rw [psfCenter, hsize]
    decide
  have hgsize : galSize (1 : ℝ) = 7 := by rw [galSize, hone]
  have hgcenter : galCenter (1 : ℝ) = 3 := by
    rw [galCenter, hgsize]
    decide
  have hpy7 : pyInt ((10 : ℝ) - ((3 : ℤ) : ℝ)) = 7 := by
    rw [pyInt, if_pos (by norm_num),
      show ((10 : ℝ) - ((3 : ℤ) : ℝ)) = ((7 : ℤ) : ℝ) by norm_num, Int.floor_intCast]
  have hc := c2_flux_conservation zeroCanvas 10 10 1 (2 * Real.sqrt (2 * Real.log 2))
    1 1 0 1 100 100 hfw0 one_pos (by norm_num)
  constructor
  · refine hc.1.2 ?_
    rw [hcenter, hsize, hpy7]
    refine ⟨by norm_num, by norm_num, by norm_num, by norm_num⟩
  · refine hc.2.2 ?_
    rw [hgcenter, hgsize, hpy7]
    refine ⟨by norm_num, by norm_num, by norm_num, by norm_num⟩

/-- Witness for C10 at a concrete in-range input and a concrete
above-65535 saturation level. -/
theorem c10_uint16_cast_witness :
    (0 ≤ astypeUint16 (detectorResponse 1 100 3) ∧
      ((astypeUint16 (detectorResponse 1 100 3) : ℝ) ≤ 100)) ∧
    ∃ v : ℝ, 65535 < detectorResponse 1 70000 v ∧
      ((astypeUint16 (detectorResponse 1 70000 v) : ℝ) < detectorResponse 1 70000 v) :=
  ⟨c10_uint16_cast.1 1 100 3 (by norm_num) (by norm_num),
   c10_uint16_cast.2 70000 (by norm_num)⟩

/-! Non-negativity of the canvas through the additive stages. -/

lemma zeroCanvas_nonneg : canvasNonneg zeroCanvas := fun _ _ => le_refl 0

lemma compositeStamp_nonneg (image : Canvas) (size : ℕ) (e : ℤ → ℤ → ℝ)
    (xs ys : ℤ) (w h : ℕ) (himg : canvasNonneg image) (he : ∀ i j, 0 ≤ e i j) :
    canvasNonneg (compositeStamp image size e xs ys w h) := by
  intro Y X
  simp only [compositeStamp]
  split
  · exact add_nonneg (himg Y X) (he _ _)
  · exact himg Y X

lemma addStellarPsf_nonneg (image : Canvas) (x y flux fwhm : ℝ) (w h : ℕ)
    (himg : canvasNonneg image) (hflux : 0 ≤ flux) :
    canvasNonneg (addStellarPsf image x y flux fwhm w h) :=
  compositeStamp_nonneg image _ _ _ _ w h himg
    (normEntry_nonneg (psfSize fwhm) (stampSize_pos _) (psfEntry fwhm)
      (psfEntry_pos fwhm) flux hflux)

lemma addGalaxyProfile_nonneg (image : Canvas) (x y flux rEff axisRat posAngle sersicN : ℝ)
    (w h : ℕ) (himg : canvasNonneg image) (hflux : 0 ≤ flux) :
    canvasNonneg (addGalaxyProfile image x y flux rEff axisRat posAngle sersicN w h) :=
  compositeStamp_nonneg image _ _ _ _ w h himg
    (normEntry_nonneg (galSize rEff) (stampSize_pos _)
      (galEntry rEff axisRat posAngle sersicN)
      (galEntry_pos rEff axisRat posAngle sersicN) flux hflux)

lemma applySky_nonneg (cfg : Config) (rng : RNG) (image : Canvas) (n : ℕ)
    (himg : canvasNonneg image) : canvasNonneg (applySky cfg rng image n).1 := by
  intro Y X
  simp only [applySky]
  split
  · exact add_nonneg (himg Y X) (Nat.cast_nonneg _)
  · exact himg Y X

lemma addOneStar_nonneg (cfg : Config) (rng : RNG) (s : Canvas × ℕ)
    (hs : canvasNonneg s.1) : canvasNonneg (addOneStar cfg rng s).1 :=
  addStellarPsf_nonneg s.1 _ _ _ _ cfg.width cfg.height hs (magnitudeToFlux_nonneg _)

lemma addOneGalaxy_nonneg (cfg : Config) (rng : RNG) (s : Canvas × ℕ)
    (hs : canvasNonneg s.1) : canvasNonneg (addOneGalaxy cfg rng s).1 :=
  addGalaxyProfile_nonneg s.1 _ _ _ _ _ _ _ cfg.width cfg.height hs
    (magnitudeToFlux_nonneg _)

lemma depositStep_nonneg (w h x y : ℕ) (energy : ℝ) (len : ℕ) (angle : ℝ)
    (he : 0 ≤ energy) (image : Canvas) (i : ℕ) (hi : i < len)
    (himg : canvasNonneg image) :
    canvasNonneg (depositStep w h x y energy len angle image i) := by
  intro Y X
  simp only [depositStep]
  split
  · dsimp only
    split
    · refine add_nonneg (himg Y X) (mul_nonneg he ?_)
      have hlen : (0 : ℝ) < (len : ℝ) :=
        Nat.cast_pos.2 (lt_of_le_of_lt (Nat.zero_le i) hi)
      have hdiv : (i : ℝ) / (len : ℝ) ≤ 1 :=
        (div_le_one hlen).2 (by exact_mod_cast hi.le)
      linarith
    · exact himg Y X
  · exact himg Y X

lemma depositTrack_nonneg (w h x y : ℕ) (energy : ℝ) (len : ℕ) (angle : ℝ)
    (he : 0 ≤ energy) (image : Canvas) (himg : canvasNonneg image) :
    canvasNonneg ((List.range len).foldl (depositStep w h x y energy len angle) image) := by
  have hgen : ∀ l : List ℕ, (∀ i ∈ l, i < len) → ∀ img : Canvas, canvasNonneg img →
      canvasNonneg (l.foldl (depositStep w h x y energy len angle) img) := by
    intro l
    induction l with
    | nil => exact fun _ img himg2 => himg2
    | cons a t ih =>
        intro hmem img himg2
        simp only [List.foldl_cons]
        exact ih (fun i hi => hmem i (List.mem_cons_of_mem a hi)) _
          (depositStep_nonneg w h x y energy len angle he img a
            (hmem a (List.mem_cons_self a t)) himg2)
  exact hgen (List.range len) (fun i hi => List.mem_range.1 hi) image himg

lemma addOneCosmic_nonneg (cfg : Config) (rng : RNG)
    (hexpo : ∀ s k, 0 ≤ rng.expo s k) (s : Canvas × ℕ) (hs : canvasNonneg s.1) :
    canvasNonneg (addOneCosmic cfg rng s).1 :=
  depositTrack_nonneg cfg.width cfg.height _ _ _ _ _
    (add_nonneg (hexpo 5000 (s.2 + 2)) (by norm_num)) s.1 hs

lemma iterateSteps_nonneg (f : Canvas × ℕ → Canvas × ℕ)
    (hf : ∀ s, canvasNonneg s.1 → canvasNonneg (f s).1) :
    ∀ (k : ℕ) (s : Canvas × ℕ), canvasNonneg s.1 → canvasNonneg (iterateSteps f k s).1 := by
  intro k
  induction k with
  | zero => exact fun s hs => hs
  | succ k ih => exact fun s hs => ih (f s) (hf s hs)

/-- Claim C5 counterexample: the read-noise stage adds zero-mean Gaussian
draws, whose realizations can be negative; with an oracle realizing `-1`
for every noise draw and zero everywhere else, the canvas right after the
noise stage (before the final clip) holds a negative pixel. -/
theorem c5_counterexample :
    (addNoise defaultConfig rngNegNoise
      (stagesPreNoise defaultConfig rngNegNoise 300 0).1
      (stagesPreNoise defaultConfig rngNegNoise 300 0).2).1 0 0 < 0 := by
  norm_num [stagesPreNoise, applySky, addStars, addGalaxies, addCosmicRays,
    cosmicNumHits, addNoise, iterateSteps, rngNegNoise, rngZero, zeroCanvas,
    defaultConfig]

/-- Claim C5 (amended): every canvas pixel is non-negative after the sky
stage, after each star composite, after each galaxy composite, and after
each cosmic-ray deposit (assuming the exponential draws are non-negative,
as an exponential sampler guarantees); in particular the whole pre-noise
canvas is non-negative.  The invariant does not survive the read-noise
stage. -/
theorem c5_nonneg_amended (cfg : Config) (rng : RNG)
    (hexpo : ∀ s k, 0 ≤ rng.expo s k) (exposureTime : ℝ) (n : ℕ) :
    canvasNonneg (applySky cfg rng zeroCanvas n).1 ∧
    (∀ (image : Canvas) (k m : ℕ), canvasNonneg image →
      canvasNonneg (iterateSteps (addOneStar cfg rng) k (image, m)).1) ∧
    (∀ (image : Canvas) (k m : ℕ), canvasNonneg image →
      canvasNonneg (iterateSteps (addOneGalaxy cfg rng) k (image, m)).1) ∧
    (∀ (image : Canvas) (k m : ℕ), canvasNonneg image →
      canvasNonneg (iterateSteps (addOneCosmic cfg rng) k (image, m)).1) ∧
    canvasNonneg (stagesPreNoise cfg rng exposureTime n).1 := by
  refine ⟨applySky_nonneg cfg rng zeroCanvas n zeroCanvas_nonneg,
    fun image k m himg =>
      iterateSteps_nonneg _ (addOneStar_nonneg cfg rng) k (image, m) himg,
    fun image k m himg =>
      iterateSteps_nonneg _ (addOneGalaxy_nonneg cfg rng) k (image, m) himg,
    fun image k m himg =>
      iterateSteps_nonneg _ (addOneCosmic_nonneg cfg rng hexpo) k (image, m) himg,
    ?_⟩
  have h1 : canvasNonneg (applySky cfg rng zeroCanvas n).1 :=
    applySky_nonneg cfg rng zeroCanvas n zeroCanvas_nonneg
  have h2 : canvasNonneg (addStars cfg rng (applySky cfg rng zeroCanvas n).1
      (applySky cfg rng zeroCanvas n).2).1 :=
    iterateSteps_nonneg _ (addOneStar_nonneg cfg rng) _ _ h1
  have h3 : canvasNonneg (addGalaxies cfg rng
      (addStars cfg rng (applySky cfg rng zeroCanvas n).1
        (applySky cfg rng zeroCanvas n).2).1
      (addStars cfg rng (applySky cfg rng zeroCanvas n).1
        (applySky cfg rng zeroCanvas n).2).2).1 :=
    iterateSteps_nonneg _ (addOneGalaxy_nonneg cfg rng) _ _ h2
  exact iterateSteps_nonneg _ (addOneCosmic_nonneg cfg rng hexpo) _ _ h3

/-- Witness for the amended C5: the all-zero oracle has non-negative
exponential draws, so every pre-noise stage point of the default run is
non-negative. -/
theorem c5_nonneg_witness :
    canvasNonneg (applySky defaultConfig rngZero zeroCanvas 0).1 ∧
    (∀ (image : Canvas) (k m : ℕ), canvasNonneg image →
      canvasNonneg (iterateSteps (addOneStar defaultConfig rngZero) k (image, m)).1) ∧
    (∀ (image : Canvas) (k m : ℕ), canvasNonneg image →
      canvasNonneg (iterateSteps (addOneGalaxy defaultConfig rngZero) k (image, m)).1) ∧
    (∀ (image : Canvas) (k m : ℕ), canvasNonneg image →
      canvasNonneg (iterateSteps (addOneCosmic defaultConfig rngZero) k (image, m)).1) ∧
    canvasNonneg (stagesPreNoise defaultConfig rngZero 300 0).1 :=
  c5_nonneg_amended defaultConfig rngZero (fun _ _ => le_refl 0) 300 0

/-- Claim C6: with a zero pixel scale — an invalid configuration that the
error-handling design says must fail fast with a `ConfigurationError` —
the generation call performs no validation at all: it runs every stage to
completion (the counter advances through sky, stars, galaxies, cosmic rays,
noise and header draws) and returns an ordinary image. -/
theorem c6_no_validation :
    (generateFitsFile cfgZeroScale rngZero 0 (some 150) (some 2) 300 (some 0) (some 0)
        (some 0)).2 = 8 ∧
    (generateFitsFile cfgZeroScale rngZero 0 (some 150) (some 2) 300 (some 0) (some 0)
        (some 0)).1.floatImage 0 0 = 0 := by
  constructor <;>
    norm_num [generateFitsFile, drawIfNone, stagesPreNoise, applySky, addStars,
      addGalaxies, addCosmicRays, cosmicNumHits, addNoise, createFitsHeader,
      iterateSteps, detectorResponse, cfgZeroScale, defaultConfig, rngZero, zeroCanvas]

lemma iterateSteps_succ {α : Type} (f : α → α) (k : ℕ) (s : α) :
    iterateSteps f (k + 1) s = f (iterateSteps f k s) := by
  induction k generalizing s with
  | zero => rfl
  | succ k ih =>
      calc iterateSteps f (k + 1 + 1) s = iterateSteps f (k + 1) (f s) := rfl
        _ = f (iterateSteps f k (f s)) := ih (f s)
        _ = f (iterateSteps f (k + 1) s) := rfl

/-- Claim C9 (amended): `generate_batch` derives no per-image sub-seed; all
draws of all images come from the single shared generator threaded
sequentially, so image k of a batch is generated by continuing at exactly
the counter reached after images 0..k-1 (with its pointing and exposure
drawn from the same stream just before). -/
theorem c9_sequential_amended (cfg : Config) (rng : RNG) (k : ℕ) :
    generateBatch cfg rng (k + 1) = batchIteration cfg rng (generateBatch cfg rng k) ∧
    (generateBatch cfg rng (k + 1)).1 =
      (generateBatch cfg rng k).1 ++
        [(generateFitsFile cfg rng ((generateBatch cfg rng k).2 + 3)
            (some (rng.unif 0 360 (generateBatch cfg rng k).2))
            (some (rng.unif (-30) 60 ((generateBatch cfg rng k).2 + 1)))
            (exposureChoices.getD (rng.choice 5 ((generateBatch cfg rng k).2 + 2)) 0)
            none none none).1] := by
  have h1 : generateBatch cfg rng (k + 1) = batchIteration cfg rng (generateBatch cfg rng k) :=
    iterateSteps_succ _ k _
  refine ⟨h1, ?_⟩
  rw [h1]
  rfl

/-- Claim C9 counterexample: two oracles that differ only in the scalar
Poisson draw at call position 7 — the star-count draw of batch image 0
(both batch runs of a single image consume that position: the run counters
end at 14 and 19, past position 7) — produce different pixel content for
batch image 1, so image 1 depends on the number of draws consumed by image
0; no independently derived per-image seed exists. -/
theorem c9_counterexample :
    rngSeqA.unif = rngSeqB.unif ∧ rngSeqA.norm = rngSeqB.norm ∧
    rngSeqA.expo = rngSeqB.expo ∧ rngSeqA.randint = rngSeqB.randint ∧
    rngSeqA.choice = rngSeqB.choice ∧ rngSeqA.rand = rngSeqB.rand ∧
    rngSeqA.poisArr = rngSeqB.poisArr ∧ rngSeqA.normArr = rngSeqB.normArr ∧
    (∀ (a : ℝ) (k : ℕ), k ≠ 7 → rngSeqA.pois a k = rngSeqB.pois a k) ∧
    (generateBatch cfgTiny rngSeqA 1).2 = 14 ∧
    (generateBatch cfgTiny rngSeqB 1).2 = 19 ∧
    ((generateBatch cfgTiny rngSeqA 2).1.getD 1 dummyOutput).floatImage 0 0 = 20 ∧
    ((generateBatch cfgTiny rngSeqB 2).1.getD 1 dummyOutput).floatImage 0 0 = 25 ∧
    ((generateBatch cfgTiny rngSeqA 2).1.getD 1 dummyOutput).floatImage 0 0 ≠
      ((generateBatch cfgTiny rngSeqB 2).1.getD 1 dummyOutput).floatImage 0 0 := by
  refine ⟨rfl, rfl, rfl, rfl, rfl, rfl, rfl, rfl, ?_, ?_, ?_, ?_, ?_, ?_⟩ <;>
    first
      | (intro a k hk
         simp [rngSeqA, rngSeqB, rngZero, hk])
      | norm_num [generateBatch, iterateSteps, batchIteration, generateFitsFile,
          drawIfNone, stagesPreNoise, applySky, addStars, addGalaxies, addCosmicRays,
          cosmicNumHits, addNoise, createFitsHeader, detectorResponse, List.getD,
          rngSeqA, rngSeqB, rngZero, cfgTiny, defaultConfig, exposureChoices,
          genStellarMagnitude, addOneStar, zeroCanvas, min_def, max_def]

end FitsGen
